import Mathlib

/-!
# Verification of the rollup-deployment core of `arbitrum-orbit-sdk`

Shallow embedding of the three core operations:

* `createRollupPrepareTransactionRequest` (spec: `buildDeploymentTransaction`)
  from `createRollupPrepareTransactionRequest.ts`;
* `createRollupFetchTransactionHash` (spec: `resolveDeploymentTransactionHash`)
  from `createRollupFetchTransactionHash.ts`;
* `waitForRetryables` (spec: `trackRetryables`) from
  `createTokenBridgePrepareSetWethGatewayTransactionReceipt.ts`.

External collaborators (the viem RPC client, the `@arbitrum/sdk` cross-chain
message derivation, the ERC-20 decimals read, the ABI encoder) are modelled as
fields of an environment record: each operation is a pure function of its
parameters and that environment.  Big-endian machine integers (`bigint` in the
source) are modelled as `Nat`: all quantities involved (gas, block numbers,
decimals) are non-negative and no wrap-around arithmetic occurs in the source.
Addresses and hashes are modelled as `Nat` carriers; only equality with the
zero address is ever inspected.
-/

/-- Ethereum address carrier.  Only equality (in particular with the zero
address) is inspected by the code under verification. -/
abbrev AddressT := Nat

/-- viem's `zeroAddress` constant (`0x0000…0000`). -/
def zeroAddress : AddressT := 0

/-- Transaction-hash carrier. -/
abbrev HashT := Nat

/-! ## Chain registry

The chain ids come from the SDK's `./chains` module (not included under
`src/`); their numeric values are the well-known public chain ids referenced
by name in `createRollupFetchTransactionHash.ts`. -/

def mainnetId : Nat := 1
def arbitrumOneId : Nat := 42161
def arbitrumNovaId : Nat := 42170
def sepoliaId : Nat := 11155111
def holeskyId : Nat := 17000
def arbitrumSepoliaId : Nat := 421614
def nitroTestnodeL1Id : Nat := 1337
def nitroTestnodeL2Id : Nat := 412346

/-- Modelled from the spec: the supported-network allow-list used by
`validateParentChain` (`types/ParentChain.ts`, not under `src/`).  §4.3:
"validates network identity of the RPC client against a supported-network
allow-list"; populated with the parent chains the source imports from its
chain registry. -/
def supportedParentChains : List Nat :=
  [mainnetId, arbitrumOneId, arbitrumNovaId, sepoliaId, holeskyId,
   arbitrumSepoliaId, nitroTestnodeL1Id, nitroTestnodeL2Id]

/-- Modelled from the spec: `validateParentChain` (`types/ParentChain.ts`, not
under `src/`).  Returns the client's chain id when it is on the allow-list and
`none` (in the source: throws an unsupported-parent-chain error) otherwise. -/
def validateParentChain (chainId : Nat) : Option Nat :=
  if supportedParentChains.contains chainId then some chainId else none

/-! ## Data model of `createRollupPrepareTransactionRequest` -/

/-- The `arbitrum` section of a parsed `ChainConfig`; the only field the core
inspects is the data-availability-committee flag. -/
structure ArbitrumChainParams where
  DataAvailabilityCommittee : Bool
deriving Repr, DecidableEq

/-- A parsed `ChainConfig` (the result of `JSON.parse` on the JSON-encoded
`chainConfig` string).  Only the `arbitrum` section is inspected by the core. -/
structure ChainConfig where
  arbitrum : ArbitrumChainParams
deriving Repr, DecidableEq

/-- Modelled from the spec: `isAnyTrustChainConfig`
(`utils/isAnyTrustChainConfig.ts`, not under `src/`).  §3 / glossary: the
`ChainConfig` carries "a boolean flag indicating whether the chain uses a
committee-based (non-rollup) data-availability mode (AnyTrust)"; the source's
error message names it `arbitrum.DataAvailabilityCommittee`. -/
def isAnyTrustChainConfig (chainConfig : ChainConfig) : Bool :=
  chainConfig.arbitrum.DataAvailabilityCommittee

/-- Modelled from the spec: `isCustomFeeTokenAddress`
(`utils/isCustomFeeTokenAddress.ts`, not under `src/`).  §3: "native fee-token
address (zero address = native gas token)" — a custom fee token is present
exactly when the address differs from the zero address. -/
def isCustomFeeTokenAddress (nativeToken : AddressT) : Bool :=
  nativeToken != zeroAddress

/-- The caller-facing slice of `CreateRollupParams.config`: the core only reads
the JSON-encoded `chainConfig` string from it. -/
structure CreateRollupConfig where
  chainConfig : String
deriving Repr

/-- The slice of `CreateRollupParams` the core inspects: batch poster,
validator set, native fee token, and the config blob. -/
structure CreateRollupParams where
  config : CreateRollupConfig
  batchPoster : AddressT
  validators : List AddressT
  nativeToken : AddressT
deriving Repr

/-- `GasOverrideOptions` (`utils/gasOverrides.ts`, not under `src/`).
Modelled from the spec, §3: "GasOverrides: optional
`{ base: integer|unset, percentIncrease: integer }`". -/
structure GasOverrideOptions where
  base : Option Nat
  percentIncrease : Option Nat
deriving Repr

/-- `TransactionRequestGasOverrides` (`utils/gasOverrides.ts`, not under
`src/`): an optional `gasLimit` override bundle. -/
structure TransactionRequestGasOverrides where
  gasLimit : Option GasOverrideOptions
deriving Repr

/-- Modelled from the spec: `applyPercentIncrease` (`utils/gasOverrides.ts`,
not under `src/`).  §4.2: "given an estimated-or-overridden base gas amount
and a percent-increase, returns `base + floor(base * percentIncrease / 100)`,
using integer arithmetic throughout"; an unset percent-increase means no
increase. -/
def applyPercentIncrease (base : Nat) (percentIncrease : Option Nat) : Nat :=
  base + base * percentIncrease.getD 0 / 100

/-- The ABI-level inputs of the `createRollup` call after merging the caller
params with the documented defaults and the network-derived `maxDataSize`
(the defaulted fields the core never reads are folded into the abstract
encoder). -/
structure CreateRollupFunctionInputs where
  batchPoster : AddressT
  validators : List AddressT
  nativeToken : AddressT
  chainConfig : String
  maxDataSize : Nat

/-- Modelled from the spec: `createRollupGetMaxDataSize`
(`createRollupGetMaxDataSize.ts`, not under `src/`).  §3: "derived
`maxDataSize` (network-dependent constant)" — the smaller constant for
L2 parent chains, the larger one for L1 parent chains. -/
def createRollupGetMaxDataSize (chainId : Nat) : Nat :=
  if chainId == arbitrumOneId || chainId == arbitrumNovaId ||
     chainId == arbitrumSepoliaId || chainId == nitroTestnodeL2Id
  then 104857 else 117964

/-- An unsigned transaction request as returned by the RPC client's
`prepareTransactionRequest` (the fields the core reads or writes; the source's
`to` field is spelled `toAddress`, `to` being reserved here). -/
structure PreparedTransactionRequest where
  toAddress : AddressT
  data : Nat
  value : Nat
  account : AddressT
  gas : Option Nat
deriving Repr

/-- The value returned by `createRollupPrepareTransactionRequest`: the
prepared request spread together with the validated parent chain id. -/
structure CreateRollupTransactionRequest extends PreparedTransactionRequest where
  chainId : Nat
deriving Repr

/-- The failure modes of `createRollupPrepareTransactionRequest`, named as in
the spec (§4.1–§4.3); `ChainConfigParseError` stands for the `SyntaxError`
thrown by `JSON.parse` on an unparseable `chainConfig` string. -/
inductive CreateRollupError where
  | UnsupportedParentChain
  | InvalidBatchPoster
  | InvalidValidatorSet
  | ChainConfigParseError
  | FeeTokenNotSupported
  | UnsupportedFeeTokenDecimals
  | MissingGasBase
deriving Repr, DecidableEq

/-- The external collaborators of `createRollupPrepareTransactionRequest`,
bound for the duration of one call:

* `chainId` — the network id the RPC client reports (`publicClient.chain.id`);
* `jsonParse` — the outcome of the JavaScript `JSON.parse` builtin on a chain
  config string (`none` = the string is unparseable and the builtin throws);
* `fetchDecimals` — the ERC-20 `decimals()` read (`utils/erc20.ts`);
* `estimatedGas` — the gas estimate the RPC's `prepareTransactionRequest`
  populates when asked to estimate (`none` = estimation failed to populate
  an estimate on the prepared request);
* `encodeFunctionData` — viem's opaque ABI-encoding capability, keyed by
  function name;
* `rollupCreatorAddress` — the registry default deployment-contract address
  (`utils/getters.ts`);
* `callValue` — modelled from the spec: `createRollupGetCallValue`
  (`createRollupGetCallValue.ts`, not under `src/`), §4.1: "Computes required
  native value as a pure function of the (possibly defaulted) parameters — no
  network call"; the spec does not pin its formula, so it is quantified. -/
structure RollupEnv where
  chainId : Nat
  jsonParse : String → Option ChainConfig
  fetchDecimals : AddressT → Nat
  estimatedGas : Option Nat
  encodeFunctionData : String → CreateRollupFunctionInputs → Nat
  rollupCreatorAddress : AddressT
  callValue : CreateRollupFunctionInputs → Nat

/-- `createRollupEncodeFunctionData` from
`createRollupPrepareTransactionRequest.ts`: encodes the `createRollup` call
through the ABI-encoding collaborator. -/
def createRollupEncodeFunctionData (env : RollupEnv)
    (args : CreateRollupFunctionInputs) : Nat :=
  env.encodeFunctionData "createRollup" args

/-- The `gas` argument passed to the RPC's `prepareTransactionRequest`:
`typeof gasOverrides?.gasLimit?.base !== 'undefined' ? 0n : undefined` —
gas is hardcoded to `0` exactly when a base gas-limit override was supplied,
to skip estimation. -/
def estimationGasArg (gasOverrides : Option TransactionRequestGasOverrides) :
    Option Nat :=
  match gasOverrides with
  | none => none
  | some go =>
    match go.gasLimit with
    | none => none
    | some gl =>
      match gl.base with
      | none => none
      | some _ => some 0

/-- The RPC client's `prepareTransactionRequest` (spec §6): echoes the
destination, data, value and account, and populates `gas` with the explicit
gas argument when one is given and with the client's gas estimate otherwise. -/
def prepareTransactionRequestRpc (env : RollupEnv) (dest : AddressT) (data : Nat)
    (value : Nat) (account : AddressT) (gasArg : Option Nat) :
    PreparedTransactionRequest :=
  { toAddress := dest, data := data, value := value, account := account,
    gas := match gasArg with
           | some g => some g
           | none => env.estimatedGas }

/-- The gas-override block of `createRollupPrepareTransactionRequest`:
when a `gasLimit` override bundle is present, the request's gas becomes
`applyPercentIncrease` of `gasOverrides.gasLimit.base ?? request.gas`; when
neither a base override nor an estimate is available the call fails
(the source's non-null assertion `request.gas!`, spec: `MissingGasBase`). -/
def applyGasLimitOverrides
    (gasOverrides : Option TransactionRequestGasOverrides)
    (request : PreparedTransactionRequest) :
    Except CreateRollupError PreparedTransactionRequest :=
  match gasOverrides with
  | none => .ok request
  | some go =>
    match go.gasLimit with
    | none => .ok request
    | some gl =>
      match gl.base.or request.gas with
      | none => .error .MissingGasBase
      | some base =>
        .ok { request with gas := some (applyPercentIncrease base gl.percentIncrease) }

/-- The tail of `createRollupPrepareTransactionRequest` after all parameter
validation: derive `maxDataSize`, merge the params, ask the RPC client for an
unsigned request (with gas hardcoded to 0 iff a base override was supplied),
apply the gas-limit overrides, and attach the validated chain id. -/
def createRollupBuildRequest (env : RollupEnv) (params : CreateRollupParams)
    (account : AddressT) (gasOverrides : Option TransactionRequestGasOverrides)
    (rollupCreatorAddressOverride : Option AddressT) (chainId : Nat) :
    Except CreateRollupError CreateRollupTransactionRequest :=
  let maxDataSize := createRollupGetMaxDataSize chainId
  let paramsWithDefaults : CreateRollupFunctionInputs :=
    { batchPoster := params.batchPoster, validators := params.validators,
      nativeToken := params.nativeToken,
      chainConfig := params.config.chainConfig, maxDataSize := maxDataSize }
  let request := prepareTransactionRequestRpc env
    (rollupCreatorAddressOverride.getD env.rollupCreatorAddress)
    (createRollupEncodeFunctionData env paramsWithDefaults)
    (env.callValue paramsWithDefaults) account (estimationGasArg gasOverrides)
  match applyGasLimitOverrides gasOverrides request with
  | .error e => .error e
  | .ok req => .ok { toPreparedTransactionRequest := req, chainId := chainId }

/-- `createRollupPrepareTransactionRequest` from
`createRollupPrepareTransactionRequest.ts` (spec:
`buildDeploymentTransaction`): validate the parent chain, reject a
zero-address batch poster, reject an empty or zero-containing validator set,
parse the chain config, enforce the custom-fee-token rules (AnyTrust only,
exactly 18 decimals), then build the transaction request. -/
def createRollupPrepareTransactionRequest (env : RollupEnv)
    (params : CreateRollupParams) (account : AddressT)
    (gasOverrides : Option TransactionRequestGasOverrides)
    (rollupCreatorAddressOverride : Option AddressT) :
    Except CreateRollupError CreateRollupTransactionRequest :=
  match validateParentChain env.chainId with
  | none => .error .UnsupportedParentChain
  | some chainId =>
    if params.batchPoster == zeroAddress then
      .error .InvalidBatchPoster
    else if params.validators.length == 0 || params.validators.contains zeroAddress then
      .error .InvalidValidatorSet
    else
      match env.jsonParse params.config.chainConfig with
      | none => .error .ChainConfigParseError
      | some chainConfig =>
        if isCustomFeeTokenAddress params.nativeToken then
          -- custom fee token is only allowed for anytrust chains
          if !isAnyTrustChainConfig chainConfig then
            .error .FeeTokenNotSupported
          -- custom fee token is only allowed to have 18 decimals
          else if env.fetchDecimals params.nativeToken != 18 then
            .error .UnsupportedFeeTokenDecimals
          else
            createRollupBuildRequest env params account gasOverrides
              rollupCreatorAddressOverride chainId
        else
          createRollupBuildRequest env params account gasOverrides
            rollupCreatorAddressOverride chainId

/-! ## `createRollupFetchTransactionHash` (spec: `resolveDeploymentTransactionHash`) -/

/-- One input of an ABI event description (`abitype`'s `AbiEvent.inputs`). -/
structure AbiEventInput where
  indexed : Bool
  internalType : String
  name : String
  type : String
deriving Repr, DecidableEq

/-- An ABI event description (`abitype`'s `AbiEvent`, the fields the source
populates). -/
structure AbiEvent where
  anonymous : Bool
  inputs : List AbiEventInput
  name : String
  type : String
deriving Repr, DecidableEq

/-- `RollupInitializedEventAbi` from `createRollupFetchTransactionHash.ts`:
the ABI of the one-time `RollupInitialized(machineHash, chainId)` event. -/
def RollupInitializedEventAbi : AbiEvent :=
  { anonymous := false,
    inputs :=
      [ { indexed := false, internalType := "bytes32", name := "machineHash",
          type := "bytes32" },
        { indexed := false, internalType := "uint256", name := "chainId",
          type := "uint256" } ],
    name := "RollupInitialized",
    type := "event" }

/-- A block reference for a log query: a concrete block number or one of the
`'earliest'` / `'latest'` tags. -/
inductive BlockRef where
  | earliest
  | latest
  | number (n : Nat)
deriving Repr, DecidableEq

/-- An entry returned by the RPC's `getLogs`; the core only reads the
transaction hash, which the RPC contract does not statically guarantee to be
present (`none` = absent). -/
structure LogEntry where
  transactionHash : Option HashT
deriving Repr, DecidableEq

/-- `earliestRollupCreatorDeploymentBlockNumber` from
`createRollupFetchTransactionHash.ts`: the static per-network table of
earliest-deployment block numbers (`none` = the network id is not a key of
the table). -/
def earliestRollupCreatorDeploymentBlockNumber (chainId : Nat) : Option Nat :=
  -- mainnet
  if chainId == mainnetId then some 18736164
  else if chainId == arbitrumOneId then some 150599584
  else if chainId == arbitrumNovaId then some 47798739
  -- testnet
  else if chainId == sepoliaId then some 4741823
  else if chainId == holeskyId then some 1083992
  else if chainId == arbitrumSepoliaId then some 654628
  -- local nitro-testnode
  else if chainId == nitroTestnodeL1Id then some 0
  else if chainId == nitroTestnodeL2Id then some 0
  else none

/-- The scan lower bound of `createRollupFetchTransactionHash`:
`chainId in earliestRollupCreatorDeploymentBlockNumber ? table[chainId] :
'earliest'`. -/
def rollupScanFromBlock (chainId : Nat) : BlockRef :=
  match earliestRollupCreatorDeploymentBlockNumber chainId with
  | some n => BlockRef.number n
  | none => BlockRef.earliest

/-- The failure modes of `createRollupFetchTransactionHash`, named as in the
spec (§4.4); `UnexpectedEventCount` carries the offending count, as the
source's error message does. -/
inductive FetchHashError where
  | UnsupportedParentChain
  | UnexpectedEventCount (count : Nat)
  | MissingTransactionHash
deriving Repr, DecidableEq

/-- The external collaborators of `createRollupFetchTransactionHash`:
the RPC client's reported chain id and its `getLogs` query
(address, event ABI, fromBlock, toBlock). -/
structure FetchHashEnv where
  chainId : Nat
  getLogs : AddressT → AbiEvent → BlockRef → BlockRef → List LogEntry

/-- The tail of `createRollupFetchTransactionHash` after the log query:
exactly one `RollupInitialized` event must match, and its carrier transaction
hash must be present. -/
def rollupInitializedEventsToHash (rollupInitializedEvents : List LogEntry) :
    Except FetchHashError HashT :=
  match rollupInitializedEvents with
  | [event] =>
    match event.transactionHash with
    | some transactionHash => .ok transactionHash
    | none => .error .MissingTransactionHash
  | events => .error (.UnexpectedEventCount events.length)

/-- `createRollupFetchTransactionHash` from
`createRollupFetchTransactionHash.ts` (spec:
`resolveDeploymentTransactionHash`): validate the parent chain, query the
`RollupInitialized` events of the rollup address from the tabulated
earliest-deployment block (or `'earliest'`) up to `'latest'`, and return the
unique event's transaction hash. -/
def createRollupFetchTransactionHash (env : FetchHashEnv) (rollup : AddressT) :
    Except FetchHashError HashT :=
  match validateParentChain env.chainId with
  | none => .error .UnsupportedParentChain
  | some chainId =>
    rollupInitializedEventsToHash
      (env.getLogs rollup RollupInitializedEventAbi
        (rollupScanFromBlock chainId) BlockRef.latest)

/-! ## `waitForRetryables` (spec: `trackRetryables`) -/

/-- The retryable-ticket lifecycle statuses of the cross-chain message
collaborator (`@arbitrum/sdk`'s `L1ToL2MessageStatus`). -/
inductive L1ToL2MessageStatus where
  | NOT_YET_CREATED
  | CREATION_FAILED
  | FUNDS_DEPOSITED_ON_L2
  | REDEEMED
  | EXPIRED
deriving Repr, DecidableEq

/-- A retryable-ticket message derived from the parent receipt's logs
(`@arbitrum/sdk`'s `L1ToL2Message`; only its creation id is ever read). -/
structure L1ToL2Message where
  retryableCreationId : Nat
deriving Repr, DecidableEq

/-- A child-chain transaction receipt in the cross-chain collaborator's
(ethers) representation; an abstract carrier. -/
structure EthersTransactionReceipt where
  transactionHash : HashT
deriving Repr, DecidableEq

/-- A child-chain transaction receipt in the caller-facing (viem)
representation; an abstract carrier. -/
structure TransactionReceipt where
  transactionHash : HashT
deriving Repr, DecidableEq

/-- The terminal result of the collaborator's `waitForStatus`
(`@arbitrum/sdk`'s discriminated union `L1ToL2MessageWaitResult`): a
`REDEEMED` status carries the child-chain redemption receipt; every other
status carries none. -/
inductive L1ToL2MessageWaitResult where
  | redeemed (l2TxReceipt : EthersTransactionReceipt)
  | notRedeemed (status : L1ToL2MessageStatus)
deriving Repr, DecidableEq

/-- The status discriminant of a wait result. -/
def L1ToL2MessageWaitResult.status : L1ToL2MessageWaitResult → L1ToL2MessageStatus
  | .redeemed _ => .REDEEMED
  | .notRedeemed s => s

/-- The failure modes of `waitForRetryables`, named as in the spec (§4.5);
`WaitFailed` stands for a per-message wait that itself rejects, propagated by
the `Promise.all` join. -/
inductive WaitRetryablesError where
  | UnexpectedTicketCount (count : Nat)
  | TicketNotRedeemed
  | WaitFailed
deriving Repr, DecidableEq

/-- The external collaborators of one `waitForRetryables` call:

* `messages` — the retryable-ticket messages the cross-chain derivation
  collaborator extracts from the fixed parent receipt
  (`parentChainTxReceipt.getL1ToL2Messages(orbitProvider)`);
* `waitForStatus` — the collaborator's wait-until-terminal primitive for one
  message (`none` = that wait rejects);
* `ethersToViem` — modelled from the spec: the
  `ethersTransactionReceiptToViemTransactionReceipt` conversion shim
  (`ethers-compat/`, not under `src/`), §1: a "type-conversion shim between
  different RPC client representations" treated as a simple adapter. -/
structure WaitRetryablesEnv where
  messages : List L1ToL2Message
  waitForStatus : L1ToL2Message → Option L1ToL2MessageWaitResult
  ethersToViem : EthersTransactionReceipt → TransactionReceipt

/-- `waitForRetryables` from
`createTokenBridgePrepareSetWethGatewayTransactionReceipt.ts` (spec:
`trackRetryables`): wait on every derived message (all waits joined, a single
rejection failing the whole operation), require exactly one result, require
its terminal status to be `REDEEMED`, and return the converted child-chain
redemption receipt. -/
def waitForRetryables (env : WaitRetryablesEnv) :
    Except WaitRetryablesError (List TransactionReceipt) :=
  match env.messages.mapM env.waitForStatus with
  | none => .error .WaitFailed
  | some messagesResults =>
    match messagesResults with
    | [result] =>
      match result with
      | .redeemed l2TxReceipt => .ok [env.ethersToViem l2TxReceipt]
      | .notRedeemed _ => .error .TicketNotRedeemed
    | results => .error (.UnexpectedTicketCount results.length)

/-! ## Concrete sample instances (used to evaluate the model on closed inputs) -/

/-- A concrete `JSON.parse` outcome table: parses two canonical config
strings (an AnyTrust one and a plain rollup one) and fails on everything
else. -/
def sampleJsonParse : String → Option ChainConfig := fun s =>
  if s = "anytrust-config" then some ⟨⟨true⟩⟩
  else if s = "rollup-config" then some ⟨⟨false⟩⟩
  else none

/-- A concrete collaborator environment for `createRollupPrepareTransactionRequest`:
mainnet parent chain, a working gas estimator, and a token registry in which
address `40` has 18 decimals and every other token 6. -/
def sampleRollupEnv : RollupEnv :=
  { chainId := mainnetId
    jsonParse := sampleJsonParse
    fetchDecimals := fun a => if a = 40 then 18 else 6
    estimatedGas := some 1000
    encodeFunctionData := fun _ _ => 77
    rollupCreatorAddress := 9
    callValue := fun _ => 0 }

/-- `sampleRollupEnv` with a gas estimator that fails to populate an
estimate. -/
def sampleRollupEnvNoEstimate : RollupEnv :=
  { sampleRollupEnv with estimatedGas := none }

/-- Well-formed deployment params: AnyTrust config, non-zero batch poster,
two non-zero validators, native gas token. -/
def sampleParams : CreateRollupParams :=
  { config := ⟨"anytrust-config"⟩, batchPoster := 11, validators := [21, 22],
    nativeToken := zeroAddress }

/-! ## Theorems -/

/-- Shared helper: once all parameter validations pass, the operation reduces
to the request-building tail with the validated chain id. -/
theorem createRollup_validations_pass (env : RollupEnv)
    (params : CreateRollupParams) (account : AddressT)
    (gasOverrides : Option TransactionRequestGasOverrides)
    (rcao : Option AddressT)
    (hchain : supportedParentChains.contains env.chainId = true)
    (hbp : params.batchPoster ≠ zeroAddress)
    (hvl : params.validators.length ≠ 0)
    (hvz : params.validators.contains zeroAddress = false)
    (cfg : ChainConfig)
    (hparse : env.jsonParse params.config.chainConfig = some cfg)
    (hfee : isCustomFeeTokenAddress params.nativeToken = true →
      isAnyTrustChainConfig cfg = true ∧ env.fetchDecimals params.nativeToken = 18) :
    createRollupPrepareTransactionRequest env params account gasOverrides rcao =
      createRollupBuildRequest env params account gasOverrides rcao env.chainId := by
  unfold createRollupPrepareTransactionRequest validateParentChain
  rw [hchain]
  simp only [if_true, hparse]
  have hbp' : (params.batchPoster == zeroAddress) = false := by
    simpa using hbp
  have hvl' : (params.validators.length == 0) = false := by
    simpa using hvl
  rw [hbp']
  simp only [Bool.false_eq_true, if_false, hvl', hvz, Bool.or_self]
  by_cases hc : isCustomFeeTokenAddress params.nativeToken = true
  · obtain ⟨hat, hdec⟩ := hfee hc
    rw [hc]
    simp only [hat, Bool.not_true, Bool.false_eq_true, if_false]
    have hdec' : (env.fetchDecimals params.nativeToken != 18) = false := by
      simp [hdec]
    rw [hdec']
    simp
  · rw [Bool.not_eq_true] at hc
    rw [hc]
    simp

/-- C8: for every `DeploymentParams` whose batch-poster address is the zero
address, `buildDeploymentTransaction` fails with `InvalidBatchPoster`
(on a supported parent chain). -/
theorem createRollup_zero_batchPoster_fails (env : RollupEnv)
    (params : CreateRollupParams) (account : AddressT)
    (gasOverrides : Option TransactionRequestGasOverrides)
    (rcao : Option AddressT)
    (hchain : supportedParentChains.contains env.chainId = true)
    (hbp : params.batchPoster = zeroAddress) :
    createRollupPrepareTransactionRequest env params account gasOverrides rcao =
      .error .InvalidBatchPoster := by
  unfold createRollupPrepareTransactionRequest validateParentChain
  rw [hchain]
  simp [hbp]

/-- Witness for C8: a concrete call whose batch poster is the zero address
fails with `InvalidBatchPoster`. -/
theorem createRollup_zero_batchPoster_fails_witness :
    createRollupPrepareTransactionRequest sampleRollupEnv
      { sampleParams with batchPoster := zeroAddress } 7 none none =
      .error .InvalidBatchPoster :=
  createRollup_zero_batchPoster_fails sampleRollupEnv
    { sampleParams with batchPoster := zeroAddress } 7 none none
    (by decide) rfl

/-- C9: for every `DeploymentParams` whose validator set is empty or contains
the zero address, `buildDeploymentTransaction` fails with
`InvalidValidatorSet` (on a supported parent chain, with a non-zero batch
poster). -/
theorem createRollup_invalid_validators_fails (env : RollupEnv)
    (params : CreateRollupParams) (account : AddressT)
    (gasOverrides : Option TransactionRequestGasOverrides)
    (rcao : Option AddressT)
    (hchain : supportedParentChains.contains env.chainId = true)
    (hbp : params.batchPoster ≠ zeroAddress)
    (hv : params.validators.length = 0 ∨
      params.validators.contains zeroAddress = true) :
    createRollupPrepareTransactionRequest env params account gasOverrides rcao =
      .error .InvalidValidatorSet := by
  unfold createRollupPrepareTransactionRequest validateParentChain
  rw [hchain]
  have hbp' : (params.batchPoster == zeroAddress) = false := by
    simpa using hbp
  have hcond : (params.validators.length == 0 ||
      params.validators.contains zeroAddress) = true := by
    rcases hv with hv | hv
    · simp [hv]
    · rw [hv]
      simp
  rw [hbp', hcond]
  simp

/-- Witness for C9: an empty validator set and a zero-containing validator
set both fail with `InvalidValidatorSet` on concrete calls. -/
theorem createRollup_invalid_validators_fails_witness :
    createRollupPrepareTransactionRequest sampleRollupEnv
      { sampleParams with validators := [] } 7 none none =
      .error .InvalidValidatorSet ∧
    createRollupPrepareTransactionRequest sampleRollupEnv
      { sampleParams with validators := [21, zeroAddress] } 7 none none =
      .error .InvalidValidatorSet :=
  ⟨createRollup_invalid_validators_fails sampleRollupEnv
      { sampleParams with validators := [] } 7 none none
      (by decide) (by decide) (Or.inl rfl),
   createRollup_invalid_validators_fails sampleRollupEnv
      { sampleParams with validators := [21, zeroAddress] } 7 none none
      (by decide) (by decide) (Or.inr (by decide))⟩

/-- C10: the chain-config string is JSON-parsed unconditionally, after the
batch-poster and validator checks and before any fee-token consideration: a
call with an unparseable `chainConfig` string fails (with the parse error)
for every native fee-token address, in particular the zero address. -/
theorem createRollup_unparseable_chainConfig_fails (env : RollupEnv)
    (params : CreateRollupParams) (account : AddressT)
    (gasOverrides : Option TransactionRequestGasOverrides)
    (rcao : Option AddressT)
    (hchain : supportedParentChains.contains env.chainId = true)
    (hbp : params.batchPoster ≠ zeroAddress)
    (hvl : params.validators.length ≠ 0)
    (hvz : params.validators.contains zeroAddress = false)
    (hparse : env.jsonParse params.config.chainConfig = none) :
    createRollupPrepareTransactionRequest env params account gasOverrides rcao =
      .error .ChainConfigParseError := by
  unfold createRollupPrepareTransactionRequest validateParentChain
  rw [hchain]
  have hbp' : (params.batchPoster == zeroAddress) = false := by
    simpa using hbp
  have hvl' : (params.validators.length == 0) = false := by
    simpa using hvl
  have hcond : (params.validators.length == 0 ||
      params.validators.contains zeroAddress) = false := by
    rw [hvl', hvz]
    rfl
  rw [hbp', hcond, hparse]
  simp

/-- Witness for C10: a concrete call with an unparseable chain-config string
and the zero (native) fee-token address fails with the parse error. -/
theorem createRollup_unparseable_chainConfig_fails_witness :
    createRollupPrepareTransactionRequest sampleRollupEnv
      { sampleParams with config := ⟨"garbage"⟩, nativeToken := zeroAddress }
      7 none none = .error .ChainConfigParseError :=
  createRollup_unparseable_chainConfig_fails sampleRollupEnv
    { sampleParams with config := ⟨"garbage"⟩, nativeToken := zeroAddress }
    7 none none (by decide) (by decide) (by decide) (by decide) rfl

/-- Shared helper: the only failure the request-building tail can produce is
the missing-gas-base one — in particular no fee-token failure arises after
validation. -/
theorem createRollupBuildRequest_error_eq (env : RollupEnv)
    (params : CreateRollupParams) (account : AddressT) (rcao : Option AddressT)
    (c : Nat) :
    ∀ go e, createRollupBuildRequest env params account go rcao c = .error e →
      e = CreateRollupError.MissingGasBase := by
  intro go e h
  rcases go with _ | ⟨_ | gl⟩
  · simp [createRollupBuildRequest, applyGasLimitOverrides] at h
  · simp [createRollupBuildRequest, applyGasLimitOverrides] at h
  · rcases gl with ⟨b, p⟩
    rcases b with _ | b
    · rcases hg : env.estimatedGas with _ | g
      · simp [createRollupBuildRequest, applyGasLimitOverrides,
          prepareTransactionRequestRpc, estimationGasArg, Option.or, hg] at h
        exact h.symm
      · simp [createRollupBuildRequest, applyGasLimitOverrides,
          prepareTransactionRequestRpc, estimationGasArg, Option.or, hg] at h
    · simp [createRollupBuildRequest, applyGasLimitOverrides,
        prepareTransactionRequestRpc, estimationGasArg, Option.or] at h

/-- C3: for every call with a non-zero native fee-token address (on a
supported parent chain, past the batch-poster and validator checks): a
non-AnyTrust config fails with `FeeTokenNotSupported`; an AnyTrust config
with fetched token decimals different from 18 fails with
`UnsupportedFeeTokenDecimals`; with exactly 18 decimals the fee-token
validation succeeds (neither fee-token failure occurs, and without gas
overrides the whole operation returns a request). -/
theorem createRollup_feeToken_rules (env : RollupEnv)
    (params : CreateRollupParams) (account : AddressT)
    (go : Option TransactionRequestGasOverrides) (rcao : Option AddressT)
    (hchain : supportedParentChains.contains env.chainId = true)
    (hbp : params.batchPoster ≠ zeroAddress)
    (hvl : params.validators.length ≠ 0)
    (hvz : params.validators.contains zeroAddress = false)
    (cfg : ChainConfig)
    (hparse : env.jsonParse params.config.chainConfig = some cfg)
    (htok : params.nativeToken ≠ zeroAddress) :
    (isAnyTrustChainConfig cfg = false →
      createRollupPrepareTransactionRequest env params account go rcao =
        .error .FeeTokenNotSupported) ∧
    (isAnyTrustChainConfig cfg = true →
      env.fetchDecimals params.nativeToken ≠ 18 →
      createRollupPrepareTransactionRequest env params account go rcao =
        .error .UnsupportedFeeTokenDecimals) ∧
    (isAnyTrustChainConfig cfg = true →
      env.fetchDecimals params.nativeToken = 18 →
      createRollupPrepareTransactionRequest env params account go rcao ≠
        .error .FeeTokenNotSupported ∧
      createRollupPrepareTransactionRequest env params account go rcao ≠
        .error .UnsupportedFeeTokenDecimals ∧
      (go = none → ∃ r,
        createRollupPrepareTransactionRequest env params account go rcao =
          .ok r)) := by
  have hc : isCustomFeeTokenAddress params.nativeToken = true := by
    simpa [isCustomFeeTokenAddress] using htok
  have hbp' : (params.batchPoster == zeroAddress) = false := by
    simpa using hbp
  have hvl' : (params.validators.length == 0) = false := by
    simpa using hvl
  have hcond : (params.validators.length == 0 ||
      params.validators.contains zeroAddress) = false := by
    rw [hvl', hvz]
    rfl
  refine ⟨?_, ?_, ?_⟩
  · intro hat
    unfold createRollupPrepareTransactionRequest validateParentChain
    rw [hchain, hbp', hcond, hparse]
    simp [hc, hat]
  · intro hat hdec
    have hdec' : (env.fetchDecimals params.nativeToken != 18) = true := by
      simpa using hdec
    unfold createRollupPrepareTransactionRequest validateParentChain
    rw [hchain, hbp', hcond, hparse]
    simp [hc, hat, hdec']
  · intro hat hdec
    have heq := createRollup_validations_pass env params account go rcao
      hchain hbp hvl hvz cfg hparse (fun _ => ⟨hat, hdec⟩)
    refine ⟨?_, ?_, ?_⟩
    · rw [heq]
      intro h
      exact absurd
        (createRollupBuildRequest_error_eq env params account rcao env.chainId go _ h)
        (by decide)
    · rw [heq]
      intro h
      exact absurd
        (createRollupBuildRequest_error_eq env params account rcao env.chainId go _ h)
        (by decide)
    · intro hgo
      subst hgo
      rw [heq]
      exact ⟨_, rfl⟩

/-- Witness for C3: concrete calls with a custom fee token — a non-AnyTrust
config fails as `FeeTokenNotSupported`, an AnyTrust config with a 6-decimal
token fails as `UnsupportedFeeTokenDecimals`, and an AnyTrust config with an
18-decimal token builds a request. -/
theorem createRollup_feeToken_rules_witness :
    createRollupPrepareTransactionRequest sampleRollupEnv
      { sampleParams with nativeToken := 40, config := ⟨"rollup-config"⟩ }
      7 none none = .error .FeeTokenNotSupported ∧
    createRollupPrepareTransactionRequest sampleRollupEnv
      { sampleParams with nativeToken := 41 } 7 none none =
      .error .UnsupportedFeeTokenDecimals ∧
    (∃ r, createRollupPrepareTransactionRequest sampleRollupEnv
      { sampleParams with nativeToken := 40 } 7 none none = .ok r) :=
  ⟨(createRollup_feeToken_rules sampleRollupEnv
      { sampleParams with nativeToken := 40, config := ⟨"rollup-config"⟩ }
      7 none none (by decide) (by decide) (by decide) (by decide)
      ⟨⟨false⟩⟩ rfl (by decide)).1 rfl,
   ((createRollup_feeToken_rules sampleRollupEnv
      { sampleParams with nativeToken := 41 } 7 none none
      (by decide) (by decide) (by decide) (by decide)
      ⟨⟨true⟩⟩ rfl (by decide)).2.1 rfl (by decide)),
   ((createRollup_feeToken_rules sampleRollupEnv
      { sampleParams with nativeToken := 40 } 7 none none
      (by decide) (by decide) (by decide) (by decide)
      ⟨⟨true⟩⟩ rfl (by decide)).2.2 rfl rfl).2.2 rfl⟩

/-- C1: when a gas-limit percent-increase override is requested without a
base override and the RPC estimation step failed to populate a gas estimate,
the operation fails with `MissingGasBase` (stated past the parameter
validations, which are orthogonal to the gas path). -/
theorem createRollup_missing_gas_base (env : RollupEnv)
    (params : CreateRollupParams) (account : AddressT) (rcao : Option AddressT)
    (p : Nat)
    (hchain : supportedParentChains.contains env.chainId = true)
    (hbp : params.batchPoster ≠ zeroAddress)
    (hvl : params.validators.length ≠ 0)
    (hvz : params.validators.contains zeroAddress = false)
    (cfg : ChainConfig)
    (hparse : env.jsonParse params.config.chainConfig = some cfg)
    (hfee : isCustomFeeTokenAddress params.nativeToken = true →
      isAnyTrustChainConfig cfg = true ∧ env.fetchDecimals params.nativeToken = 18)
    (hest : env.estimatedGas = none) :
    createRollupPrepareTransactionRequest env params account
      (some ⟨some ⟨none, some p⟩⟩) rcao = .error .MissingGasBase := by
  rw [createRollup_validations_pass env params account _ rcao
    hchain hbp hvl hvz cfg hparse hfee]
  simp [createRollupBuildRequest, applyGasLimitOverrides,
    prepareTransactionRequestRpc, estimationGasArg, Option.or, hest]

/-- Witness for C1: a concrete call with a percent-increase-only gas override
against an estimator that populates no estimate fails with `MissingGasBase`. -/
theorem createRollup_missing_gas_base_witness :
    createRollupPrepareTransactionRequest sampleRollupEnvNoEstimate sampleParams
      7 (some ⟨some ⟨none, some 25⟩⟩) none = .error .MissingGasBase :=
  createRollup_missing_gas_base sampleRollupEnvNoEstimate sampleParams 7 none 25
    (by decide) (by decide) (by decide) (by decide) ⟨⟨true⟩⟩ rfl (by decide) rfl

/-- C2: the gas-override law.  With a gas-limit override of percent-increase
`p`: when a base override `O` is supplied, the returned request's gas is
`O + O*p/100`, the estimation step is requested with gas `0`, and the result
is the same whatever the estimator would have produced; without a base
override, the returned gas is `B + B*p/100` where `B` is the RPC-estimated
gas (stated past the parameter validations). -/
theorem createRollup_gas_override_law (env : RollupEnv)
    (params : CreateRollupParams) (account : AddressT) (rcao : Option AddressT)
    (p : Nat)
    (hchain : supportedParentChains.contains env.chainId = true)
    (hbp : params.batchPoster ≠ zeroAddress)
    (hvl : params.validators.length ≠ 0)
    (hvz : params.validators.contains zeroAddress = false)
    (cfg : ChainConfig)
    (hparse : env.jsonParse params.config.chainConfig = some cfg)
    (hfee : isCustomFeeTokenAddress params.nativeToken = true →
      isAnyTrustChainConfig cfg = true ∧
        env.fetchDecimals params.nativeToken = 18) :
    (∀ O : Nat,
      (∃ r, createRollupPrepareTransactionRequest env params account
          (some ⟨some ⟨some O, some p⟩⟩) rcao = .ok r ∧
          r.gas = some (O + O * p / 100)) ∧
      estimationGasArg (some ⟨some ⟨some O, some p⟩⟩) = some 0 ∧
      (∀ g, createRollupPrepareTransactionRequest { env with estimatedGas := g }
          params account (some ⟨some ⟨some O, some p⟩⟩) rcao =
        createRollupPrepareTransactionRequest env params account
          (some ⟨some ⟨some O, some p⟩⟩) rcao)) ∧
    (∀ B, env.estimatedGas = some B →
      ∃ r, createRollupPrepareTransactionRequest env params account
          (some ⟨some ⟨none, some p⟩⟩) rcao = .ok r ∧
          r.gas = some (B + B * p / 100)) := by
  constructor
  · intro O
    have heq := createRollup_validations_pass env params account
      (some ⟨some ⟨some O, some p⟩⟩) rcao hchain hbp hvl hvz cfg hparse hfee
    refine ⟨⟨⟨⟨rcao.getD env.rollupCreatorAddress,
        createRollupEncodeFunctionData env
          ⟨params.batchPoster, params.validators, params.nativeToken,
           params.config.chainConfig, createRollupGetMaxDataSize env.chainId⟩,
        env.callValue
          ⟨params.batchPoster, params.validators, params.nativeToken,
           params.config.chainConfig, createRollupGetMaxDataSize env.chainId⟩,
        account, some (O + O * p / 100)⟩, env.chainId⟩, ?_, rfl⟩, rfl, ?_⟩
    · rw [heq]
      rfl
    · intro g
      have heq2 := createRollup_validations_pass { env with estimatedGas := g }
        params account (some ⟨some ⟨some O, some p⟩⟩) rcao hchain hbp hvl hvz
        cfg hparse hfee
      rw [heq, heq2]
      rfl
  · intro B hB
    have heq := createRollup_validations_pass env params account
      (some ⟨some ⟨none, some p⟩⟩) rcao hchain hbp hvl hvz cfg hparse hfee
    refine ⟨⟨⟨rcao.getD env.rollupCreatorAddress,
        createRollupEncodeFunctionData env
          ⟨params.batchPoster, params.validators, params.nativeToken,
           params.config.chainConfig, createRollupGetMaxDataSize env.chainId⟩,
        env.callValue
          ⟨params.batchPoster, params.validators, params.nativeToken,
           params.config.chainConfig, createRollupGetMaxDataSize env.chainId⟩,
        account, some (B + B * p / 100)⟩, env.chainId⟩, ?_, rfl⟩
    rw [heq]
    simp [createRollupBuildRequest, applyGasLimitOverrides,
      prepareTransactionRequestRpc, estimationGasArg, Option.or, hB,
      applyPercentIncrease]

/-- Witness for C2: with base override `200` and percent-increase `25` the
returned gas is `250` whatever the estimator holds; without a base override
the estimated `1000` becomes `1250`. -/
theorem createRollup_gas_override_law_witness :
    (∃ r, createRollupPrepareTransactionRequest sampleRollupEnv sampleParams 7
        (some ⟨some ⟨some 200, some 25⟩⟩) none = .ok r ∧
        r.gas = some (200 + 200 * 25 / 100)) ∧
    estimationGasArg (some ⟨some ⟨some 200, some 25⟩⟩) = some 0 ∧
    createRollupPrepareTransactionRequest
        { sampleRollupEnv with estimatedGas := none } sampleParams 7
        (some ⟨some ⟨some 200, some 25⟩⟩) none =
      createRollupPrepareTransactionRequest sampleRollupEnv sampleParams 7
        (some ⟨some ⟨some 200, some 25⟩⟩) none ∧
    (∃ r, createRollupPrepareTransactionRequest sampleRollupEnv sampleParams 7
        (some ⟨some ⟨none, some 25⟩⟩) none = .ok r ∧
        r.gas = some (1000 + 1000 * 25 / 100)) := by
  have law := createRollup_gas_override_law sampleRollupEnv sampleParams 7 none
    25 (by decide) (by decide) (by decide) (by decide) ⟨⟨true⟩⟩ rfl (by decide)
  exact ⟨(law.1 200).1, (law.1 200).2.1,
    (law.1 200).2.2 none, law.2 1000 rfl⟩

/-- C4: with the log query returning exactly one initialization event carrying
a transaction hash, `resolveDeploymentTransactionHash` returns that hash; with
a result count other than 1 it fails with `UnexpectedEventCount`; with the
single event's hash absent it fails with `MissingTransactionHash` (on a
supported parent chain). -/
theorem createRollupFetchTransactionHash_cases (env : FetchHashEnv)
    (rollup : AddressT) (logs : List LogEntry)
    (hchain : supportedParentChains.contains env.chainId = true)
    (hlogs : env.getLogs rollup RollupInitializedEventAbi
      (rollupScanFromBlock env.chainId) BlockRef.latest = logs) :
    (∀ event th, logs = [event] → event.transactionHash = some th →
      createRollupFetchTransactionHash env rollup = .ok th) ∧
    (logs.length ≠ 1 →
      createRollupFetchTransactionHash env rollup =
        .error (.UnexpectedEventCount logs.length)) ∧
    (∀ event, logs = [event] → event.transactionHash = none →
      createRollupFetchTransactionHash env rollup =
        .error .MissingTransactionHash) := by
  have hred : createRollupFetchTransactionHash env rollup =
      rollupInitializedEventsToHash logs := by
    unfold createRollupFetchTransactionHash validateParentChain
    rw [hchain]
    simp [hlogs]
  refine ⟨?_, ?_, ?_⟩
  · intro event th hone hth
    rw [hred, hone]
    simp [rollupInitializedEventsToHash, hth]
  · intro hlen
    rw [hred]
    match logs, hlen with
    | [], _ => rfl
    | [event], hlen => exact absurd rfl hlen
    | e₁ :: e₂ :: rest, _ => rfl
  · intro event hone hth
    rw [hred, hone]
    simp [rollupInitializedEventsToHash, hth]

/-- Witness for C4: on a concrete environment, a single hash-carrying event
yields that hash, two events yield `UnexpectedEventCount 2`, and a single
hash-less event yields `MissingTransactionHash`. -/
theorem createRollupFetchTransactionHash_cases_witness :
    createRollupFetchTransactionHash
      ⟨mainnetId, fun _ _ _ _ => [⟨some 99⟩]⟩ 3 = .ok 99 ∧
    createRollupFetchTransactionHash
      ⟨mainnetId, fun _ _ _ _ => [⟨some 98⟩, ⟨some 97⟩]⟩ 3 =
      .error (.UnexpectedEventCount 2) ∧
    createRollupFetchTransactionHash
      ⟨mainnetId, fun _ _ _ _ => [⟨none⟩]⟩ 3 =
      .error .MissingTransactionHash :=
  ⟨(createRollupFetchTransactionHash_cases
      ⟨mainnetId, fun _ _ _ _ => [⟨some 99⟩]⟩ 3 [⟨some 99⟩]
      (by decide) rfl).1 ⟨some 99⟩ 99 rfl rfl,
   (createRollupFetchTransactionHash_cases
      ⟨mainnetId, fun _ _ _ _ => [⟨some 98⟩, ⟨some 97⟩]⟩ 3
      [⟨some 98⟩, ⟨some 97⟩] (by decide) rfl).2.1 (by decide),
   (createRollupFetchTransactionHash_cases
      ⟨mainnetId, fun _ _ _ _ => [⟨none⟩]⟩ 3 [⟨none⟩]
      (by decide) rfl).2.2 ⟨none⟩ rfl rfl⟩

/-- C7: the event-log query of `resolveDeploymentTransactionHash` runs from
the tabulated earliest-deployment block of the validated parent chain when the
chain id is a key of the static table and from the `'earliest'` genesis marker
otherwise, always up to `'latest'`: the operation equals the processing of
exactly that query, and the lower bound follows the table. -/
theorem createRollupFetchTransactionHash_scan_bounds (env : FetchHashEnv)
    (rollup : AddressT)
    (hchain : supportedParentChains.contains env.chainId = true) :
    createRollupFetchTransactionHash env rollup =
      rollupInitializedEventsToHash
        (env.getLogs rollup RollupInitializedEventAbi
          (rollupScanFromBlock env.chainId) BlockRef.latest) ∧
    (∀ c n, earliestRollupCreatorDeploymentBlockNumber c = some n →
      rollupScanFromBlock c = BlockRef.number n) ∧
    (∀ c, earliestRollupCreatorDeploymentBlockNumber c = none →
      rollupScanFromBlock c = BlockRef.earliest) := by
  refine ⟨?_, ?_, ?_⟩
  · unfold createRollupFetchTransactionHash validateParentChain
    rw [hchain]
    simp
  · intro c n hc
    unfold rollupScanFromBlock
    rw [hc]
  · intro c hc
    unfold rollupScanFromBlock
    rw [hc]

/-- Witness for C7: on mainnet the query runs from the tabulated block
`18736164`; a chain id absent from the table (e.g. `5`) scans from
`'earliest'`. -/
theorem createRollupFetchTransactionHash_scan_bounds_witness :
    createRollupFetchTransactionHash
      ⟨mainnetId, fun _ _ _ _ => [⟨some 99⟩]⟩ 3 =
      rollupInitializedEventsToHash
        ((fun (_ : AddressT) (_ : AbiEvent) (_ : BlockRef) (_ : BlockRef) =>
          [(⟨some 99⟩ : LogEntry)]) 3 RollupInitializedEventAbi
          (rollupScanFromBlock mainnetId) BlockRef.latest) ∧
    rollupScanFromBlock mainnetId = BlockRef.number 18736164 ∧
    rollupScanFromBlock 5 = BlockRef.earliest :=
  ⟨(createRollupFetchTransactionHash_scan_bounds
      ⟨mainnetId, fun _ _ _ _ => [⟨some 99⟩]⟩ 3 (by decide)).1,
   (createRollupFetchTransactionHash_scan_bounds
      ⟨mainnetId, fun _ _ _ _ => [⟨some 99⟩]⟩ 3 (by decide)).2.1
      mainnetId 18736164 rfl,
   (createRollupFetchTransactionHash_scan_bounds
      ⟨mainnetId, fun _ _ _ _ => [⟨some 99⟩]⟩ 3 (by decide)).2.2 5 rfl⟩

/-- Shared helper: a successful join of the per-message waits yields exactly
one result per derived message. -/
theorem mapM_waitForStatus_length
    (f : L1ToL2Message → Option L1ToL2MessageWaitResult) :
    ∀ (l : List L1ToL2Message) (l' : List L1ToL2MessageWaitResult),
      l.mapM f = some l' → l'.length = l.length := by
  intro l
  induction l with
  | nil =>
    intro l' h
    rw [List.mapM_nil] at h
    cases h
    rfl
  | cons m rest ih =>
    intro l' h
    rw [List.mapM_cons] at h
    rcases hf : f m with _ | r
    · rw [hf] at h
      simp at h
    · rw [hf] at h
      rcases hrest : rest.mapM f with _ | rs
      · rw [hrest] at h
        simp at h
      · rw [hrest] at h
        simp at h
        rw [h.symm]
        simp [ih rs hrest]

/-- C5: on a parent receipt deriving exactly one retryable-ticket message,
`trackRetryables` returns exactly the one normalized child-chain redemption
receipt when the ticket's terminal status is `REDEEMED`, and fails with
`TicketNotRedeemed` on any other terminal status. -/
theorem waitForRetryables_single_ticket (env : WaitRetryablesEnv)
    (m : L1ToL2Message) (result : L1ToL2MessageWaitResult)
    (hm : env.messages = [m])
    (hw : env.waitForStatus m = some result) :
    (∀ l2TxReceipt, result = .redeemed l2TxReceipt →
      waitForRetryables env = .ok [env.ethersToViem l2TxReceipt]) ∧
    (∀ status, result = .notRedeemed status →
      waitForRetryables env = .error .TicketNotRedeemed) := by
  have hred : env.messages.mapM env.waitForStatus = some [result] := by
    rw [hm]
    rw [List.mapM_cons, hw]
    rfl
  constructor
  · intro l2TxReceipt hr
    unfold waitForRetryables
    rw [hred, hr]
  · intro status hr
    unfold waitForRetryables
    rw [hred, hr]

/-- Witness for C5: a concrete single redeemed ticket returns the one
converted child receipt; a concrete single expired ticket fails with
`TicketNotRedeemed`. -/
theorem waitForRetryables_single_ticket_witness :
    waitForRetryables
      ⟨[⟨5⟩], fun _ => some (.redeemed ⟨64⟩), fun r => ⟨r.transactionHash⟩⟩ =
      .ok [⟨64⟩] ∧
    waitForRetryables
      ⟨[⟨5⟩], fun _ => some (.notRedeemed .EXPIRED),
        fun r => ⟨r.transactionHash⟩⟩ =
      .error .TicketNotRedeemed :=
  ⟨(waitForRetryables_single_ticket
      ⟨[⟨5⟩], fun _ => some (.redeemed ⟨64⟩), fun r => ⟨r.transactionHash⟩⟩
      ⟨5⟩ (.redeemed ⟨64⟩) rfl rfl).1 ⟨64⟩ rfl,
   (waitForRetryables_single_ticket
      ⟨[⟨5⟩], fun _ => some (.notRedeemed .EXPIRED),
        fun r => ⟨r.transactionHash⟩⟩
      ⟨5⟩ (.notRedeemed .EXPIRED) rfl rfl).2 .EXPIRED rfl⟩

/-- C6: when the per-message waits all land, a derived-message count other
than 1 fails with `UnexpectedTicketCount` carrying that count (the join
yields one result per derived message); and the waits are joined before the
count check — a rejecting wait fails the whole operation with the join's
failure, never with the count failure. -/
theorem waitForRetryables_ticket_count (env : WaitRetryablesEnv) :
    (∀ results, env.messages.mapM env.waitForStatus = some results →
      results.length ≠ 1 →
      waitForRetryables env =
        .error (.UnexpectedTicketCount results.length) ∧
      results.length = env.messages.length) ∧
    (env.messages.mapM env.waitForStatus = none →
      waitForRetryables env = .error .WaitFailed) := by
  constructor
  · intro results hres hlen
    refine ⟨?_, mapM_waitForStatus_length env.waitForStatus env.messages
      results hres⟩
    unfold waitForRetryables
    rw [hres]
    match results, hlen with
    | [], _ => rfl
    | [r], hlen => exact absurd rfl hlen
    | r₁ :: r₂ :: rest, _ => rfl
  · intro hres
    unfold waitForRetryables
    rw [hres]

/-- Witness for C6: two concrete derived tickets (both waits landing) fail
with `UnexpectedTicketCount 2`, where 2 is the derived-message count; with
two derived tickets whose second wait rejects, the operation fails with the
join's failure instead. -/
theorem waitForRetryables_ticket_count_witness :
    (waitForRetryables
      ⟨[⟨5⟩, ⟨6⟩], fun _ => some (.redeemed ⟨64⟩),
        fun r => ⟨r.transactionHash⟩⟩ =
      .error (.UnexpectedTicketCount 2) ∧
      2 = 2) ∧
    waitForRetryables
      ⟨[⟨5⟩, ⟨6⟩], fun msg => if msg.retryableCreationId = 5
          then some (.redeemed ⟨64⟩) else none,
        fun r => ⟨r.transactionHash⟩⟩ =
      .error .WaitFailed :=
  ⟨(waitForRetryables_ticket_count
      ⟨[⟨5⟩, ⟨6⟩], fun _ => some (.redeemed ⟨64⟩),
        fun r => ⟨r.transactionHash⟩⟩).1
      [.redeemed ⟨64⟩, .redeemed ⟨64⟩] rfl (by decide),
   (waitForRetryables_ticket_count
      ⟨[⟨5⟩, ⟨6⟩], fun msg => if msg.retryableCreationId = 5
          then some (.redeemed ⟨64⟩) else none,
        fun r => ⟨r.transactionHash⟩⟩).2 rfl⟩
